import Mathlib

/-!
# Verification of `niftynet/application/autoencoder_application.py`

A shallow embedding of the `AutoencoderApplication` class: the mode-dispatch
orchestration that selects data channels, sampler configuration, the network
subgraph to build, the declared outputs and the output-decoding path for the
five operating modes (training plus the four inference types `encode`,
`encode-decode`, `sample`, `linear_interpolation`).

Python floats are modelled as rationals (`Rat`); TensorFlow tensors appearing
in the inference graphs are modelled symbolically (`SymTensor`) with a static
shape semantics; fallible Python code (raising exceptions) returns `Except`.
-/

set_option autoImplicit false

namespace Autoencoder

/-- Errors raised by the orchestration code. `configurationError` models the
`ValueError` raised by the supported-mode lookup, `shapeMismatchError` the
tensor-reshape failure, `notImplementedError` the defensive fallthrough at the
end of `connect_data_and_network`. -/
inductive PyError where
  | configurationError (msg : String)
  | shapeMismatchError
  | notImplementedError
deriving DecidableEq, Repr

/-- `SUPPORTED_INFERENCE` from the module header (a Python `set`, modelled as a
list; only membership is ever used). -/
def SUPPORTED_INFERENCE : List String :=
  ["encode", "encode-decode", "sample", "linear_interpolation"]

/-- Modelled from the spec: `look_up_operations` (defined in
`niftynet.utilities.util_common`, which is not under `src/`) validates a string
by an exact-match lookup against the supported set, returning the string when
it is a member and raising a `ConfigurationError`-class error otherwise
("validated via an exact-match lookup against the supported-mode set"). -/
def look_up_operations (type_str : String) (supported : List String) :
    Except PyError String :=
  if type_str ∈ supported then .ok type_str
  else .error (.configurationError type_str)

/-- The fields of `net_param` read by this module. -/
structure NetParam where
  batch_size : Nat
  reg_type : String
  decay : Rat
  name : String
deriving DecidableEq, Repr

/-- The fields of `action_param` read by this module. -/
structure ActionParam where
  random_flipping_axes : Int
  scaling_percentage : List Rat
  rotation_angle : List Rat
  lr : Rat
  spatial_window_size : List Nat
  save_seg_dir : String
  loss_type : String
deriving DecidableEq, Repr

/-- The fields of the task parameter (`autoencoder_param`) read by this
module. -/
structure AutoencoderParam where
  inference_type : String
  n_interpolations : Nat
  noise_stddev : Rat
deriving DecidableEq, Repr

/-- One augmentation layer appended by `initialise_dataset_loader`; the
constructor arguments record the parameters each layer is constructed with
(the `Option` values are Python indexing `range[0]`/`range[1]`). -/
inductive AugLayer where
  | randomFlip (flip_axes : Int)
  | randomSpatialScaling (min_percentage max_percentage : Option Rat)
  | randomRotation (min_angle max_angle : Option Rat)
deriving DecidableEq, Repr

/-- The value of `self.reader`: `pyNone` before assignment, `emptyTuple` the
`()` sentinel assigned in sample mode, or an `ImageReader(channels)` whose
`initialised` flag records whether `initialise_reader` ran and whose `layers`
field records the preprocessing chain bound by `add_preprocessing_layers`
(`none` when that method was never invoked). -/
inductive Reader where
  | pyNone
  | emptyTuple
  | imageReader (channels : List String) (initialised : Bool)
      (layers : Option (List AugLayer))
deriving DecidableEq, Repr

/-- A sampler as constructed by `initialise_sampler`: either a
`ResizeSampler(reader, data_param, batch_size, windows_per_image,
shuffle_buffer)` or a `LinearInterpolateSampler(reader, data_param,
batch_size, n_interpolations)` (the opaque `data_param` passthrough is not
modelled). -/
inductive Sampler where
  | resize (reader : Reader) (batch_size : Nat) (windows_per_image : Nat)
      (shuffle_buffer : Bool)
  | linearInterpolate (reader : Reader) (batch_size : Nat)
      (n_interpolations : Nat)
deriving DecidableEq, Repr

/-- The regularizer object selected by `initialise_network`
(`regularizers.l2_regularizer(decay)` / `regularizers.l1_regularizer(decay)`). -/
inductive Regularizer where
  | l2 (decay : Rat)
  | l1 (decay : Rat)
deriving DecidableEq, Repr

/-- The network object constructed by `initialise_network`:
`ApplicationNetFactory.create(name)(w_regularizer=…, b_regularizer=…)`. -/
structure NetInstance where
  w_regularizer : Option Regularizer
  b_regularizer : Option Regularizer
  name : String
deriving DecidableEq, Repr

/-- The mutable state of an `AutoencoderApplication` instance that the claims
are about. `infer_type` models `self._infer_type` (`none` both before
assignment and for the training-mode `None`). -/
structure AppState where
  is_training : Bool
  net_param : NetParam
  action_param : ActionParam
  autoencoder_param : AutoencoderParam
  infer_type : Option String
  reader : Reader
  sampler : List Sampler
  net : Option NetInstance
deriving DecidableEq, Repr

/-- The augmentation chain built inside `initialise_dataset_loader` (lines
60-72) when `is_training` holds: flip (when `random_flipping_axes != -1`),
then spatial scaling (when `scaling_percentage` is truthy), then rotation
(when `rotation_angle` is truthy), in that source order. -/
def augmentation_layers (ap : ActionParam) : List AugLayer :=
  (if ap.random_flipping_axes ≠ -1 then
      [AugLayer.randomFlip ap.random_flipping_axes]
    else []) ++
  (if ap.scaling_percentage ≠ [] then
      [AugLayer.randomSpatialScaling (ap.scaling_percentage.get? 0)
        (ap.scaling_percentage.get? 1)]
    else []) ++
  (if ap.rotation_angle ≠ [] then
      [AugLayer.randomRotation (ap.rotation_angle.get? 0)
        (ap.rotation_angle.get? 1)]
    else [])

/-- `AutoencoderApplication.initialise_dataset_loader` (lines 37-73), as a
state transformer. Mutation order is faithful: `autoencoder_param` is assigned
before the supported-mode lookup, so on a lookup failure the error carries the
partially updated state (the state at the raise point). The reader's
`initialised`/`layers` fields record the `initialise_reader` and
`add_preprocessing_layers` calls guarded by `if self.reader:` (the `()`
sentinel is falsy). -/
def initialise_dataset_loader (app0 : AppState) (task_param : AutoencoderParam) :
    Except (PyError × AppState) AppState :=
  let app := { app0 with autoencoder_param := task_param }
  let checked : Except (PyError × AppState) AppState :=
    if app.is_training then .ok { app with infer_type := none }
    else
      match look_up_operations task_param.inference_type SUPPORTED_INFERENCE with
      | .error e => .error (e, app)
      | .ok t => .ok { app with infer_type := some t }
  match checked with
  | .error e => .error e
  | .ok app =>
    let app :=
      if app.is_training then
        { app with reader := .imageReader ["image"] false none }
      else app
    let app :=
      if app.infer_type = some "encode" ∨ app.infer_type = some "encode-decode" then
        { app with reader := .imageReader ["image"] false none }
      else if app.infer_type = some "sample" then
        { app with reader := .emptyTuple }
      else if app.infer_type = some "linear_interpolation" then
        { app with reader := .imageReader ["feature"] false none }
      else app
    match app.reader with
    | .imageReader ch _ _ =>
      let layers :=
        if app.is_training then augmentation_layers app.action_param else []
      .ok { app with reader := .imageReader ch true (some layers) }
    | _ => .ok app

/-- `AutoencoderApplication.initialise_sampler` (lines 75-99). -/
def initialise_sampler (app : AppState) : AppState :=
  let base := { app with sampler := ([] : List Sampler) }
  if app.is_training then
    { base with sampler :=
        [Sampler.resize app.reader app.net_param.batch_size 1 true] }
  else if app.infer_type = some "encode" ∨ app.infer_type = some "encode-decode" then
    { base with sampler :=
        [Sampler.resize app.reader app.net_param.batch_size 1 false] }
  else if app.infer_type = some "linear_interpolation" then
    { base with sampler :=
        [Sampler.linearInterpolate app.reader app.net_param.batch_size
          app.autoencoder_param.n_interpolations] }
  else base

/-- `AutoencoderApplication.initialise_network` (lines 101-117): the
regularizer pair is selected from `reg_type.lower()` and a positive `decay`. -/
def initialise_network (app : AppState) : AppState :=
  let reg_type := app.net_param.reg_type.toLower
  let decay := app.net_param.decay
  let regs : Option Regularizer × Option Regularizer :=
    if reg_type = "l2" ∧ 0 < decay then
      (some (.l2 decay), some (.l2 decay))
    else if reg_type = "l1" ∧ 0 < decay then
      (some (.l1 decay), some (.l1 decay))
    else (none, none)
  { app with net := some ⟨regs.1, regs.2, app.net_param.name⟩ }

/-- `tf.reduce_mean` over a 1-dimensional list of values. -/
def reduce_mean (xs : List Rat) : Rat := xs.sum / (xs.length : Rat)

/-- The loss assembled by the training branch of `connect_data_and_network`
(lines 133-140): `loss = data_loss`, then when `decay > 0.0` and the
regularization-loss collection is non-empty,
`loss = loss + reduce_mean([reduce_mean(r) for r in reg_losses])`. Each
regularization loss tensor is modelled as its list of entries. -/
def train_loss (decay : Rat) (data_loss : Rat) (reg_losses : List (List Rat)) :
    Rat :=
  let loss := data_loss
  if 0 < decay then
    if reg_losses ≠ [] then loss + reduce_mean (reg_losses.map reduce_mean)
    else loss
  else loss

/-- What the training branch (lines 122-151) produces: the loss handed to
`self.optimiser.compute_gradients`, and the named scalars declared to the
console and summary collections. -/
structure TrainGraph where
  data_loss : Rat
  compute_gradients_arg : Rat
  console : List (String × Rat)
  summaries : List (String × Rat)
deriving DecidableEq, Repr

/-- The training branch of `connect_data_and_network`, with the data loss and
the contents of the `REGULARIZATION_LOSSES` collection as inputs. -/
def connect_train (decay : Rat) (data_loss : Rat)
    (reg_losses : List (List Rat)) : TrainGraph :=
  { data_loss := data_loss
    compute_gradients_arg := train_loss decay data_loss reg_losses
    console := [("variational_lower_bound", data_loss)]
    summaries := [("variational_lower_bound", data_loss)] }

/-- Symbolic TensorFlow tensors as built by the inference branches of
`connect_data_and_network`: casts, tensors popped from the sampler's batch
dictionary, positional elements of the network-output tuple, `tf.zeros`,
`tf.random_normal`, the two decoder-only entry points, and `tf.reshape`. -/
inductive SymTensor where
  | castF32 (t : SymTensor)
  | sampled (channel : String)
  | netOut (input : SymTensor) (idx : Nat)
  | zeros (shape : List Nat)
  | randomNormal (shape : List Nat) (mean stddev : Rat)
  | sharedDecoder (t : SymTensor)
  | decoderMeans (t : SymTensor)
  | reshaped (t : SymTensor) (shape : List Nat)
deriving DecidableEq, Repr

/-- The interface of the external network collaborator that shape reasoning
needs: the length of its output tuple and the static output shapes, plus the
output shapes of its two decoder-only entry points. -/
structure NetModel where
  numOutputs : Nat
  outShape : List Nat → Nat → List Nat
  sharedDecoderShape : List Nat → List Nat
  decoderMeansShape : List Nat → List Nat

/-- Static shape of a symbolic tensor, given the network's shape behaviour and
the shapes of the channels produced by the sampler. -/
def SymTensor.shape (net : NetModel) (chShape : String → List Nat) :
    SymTensor → List Nat
  | .castF32 t => t.shape net chShape
  | .sampled c => chShape c
  | .netOut t idx => net.outShape (t.shape net chShape) idx
  | .zeros s => s
  | .randomNormal s _ _ => s
  | .sharedDecoder t => net.sharedDecoderShape (t.shape net chShape)
  | .decoderMeans t => net.decoderMeansShape (t.shape net chShape)
  | .reshaped _ s => s

/-- `tf.reshape` with a fully defined target shape: succeeds exactly when the
element counts of the old and the new shape agree, and raises the
shape-mismatch error otherwise. -/
def tf_reshape (net : NetModel) (chShape : String → List Nat) (t : SymTensor)
    (new_shape : List Nat) : Except PyError SymTensor :=
  if (t.shape net chShape).prod = new_shape.prod then .ok (.reshaped t new_shape)
  else .error .shapeMismatchError

/-- The `WindowAsImageAggregator(image_reader=…, output_path=…)` constructed
as `self.output_decoder`. -/
structure Aggregator where
  image_reader : Option Reader
  output_path : String
deriving DecidableEq, Repr

/-- What an inference branch of `connect_data_and_network` produces: the named
tensors declared to the console collection (in declaration order) and the
aggregator bound as `self.output_decoder`. -/
structure ConnectResult where
  console : List (String × SymTensor)
  output_decoder : Option Aggregator
deriving DecidableEq, Repr

/-- The `(batch_size,) + spatial_window_size + (1,)` dummy-image shape used by
the sample and linear-interpolation branches (lines 176-177 and 200-201). -/
def dummy_image_size (app : AppState) : List Nat :=
  app.net_param.batch_size :: (app.action_param.spatial_window_size ++ [1])

/-- The inference (`else`) branch of `connect_data_and_network` (lines
152-222), dispatching on `self._infer_type`. `net` gives the external
network's output arity and shapes; `chShape` gives the shapes of the sampler's
channels (in particular of the `feature` batch popped in the
linear-interpolation branch). -/
def connect_inference (app : AppState) (net : NetModel)
    (chShape : String → List Nat) : Except PyError ConnectResult :=
  if app.infer_type = some "encode" ∨ app.infer_type = some "encode-decode" then
    let image := SymTensor.castF32 (.sampled "image")
    let outs :=
      [("location", SymTensor.sampled "image_location")] ++
      (if app.infer_type = some "encode-decode" then
          [("generated_image", SymTensor.netOut image 2)]
        else []) ++
      (if app.infer_type = some "encode" then
          [("embedded", SymTensor.netOut image 7)]
        else [])
    .ok { console := outs
          output_decoder :=
            some ⟨some app.reader, app.action_param.save_seg_dir⟩ }
  else if app.infer_type = some "sample" then
    let dummy_image := SymTensor.zeros (dummy_image_size app)
    let noise_shape :=
      (SymTensor.netOut dummy_image (net.numOutputs - 1)).shape net chShape
    let noise :=
      SymTensor.randomNormal noise_shape 0 app.autoencoder_param.noise_stddev
    let decoder_output := SymTensor.decoderMeans (.sharedDecoder noise)
    .ok { console := [("generated_image", decoder_output)]
          output_decoder := some ⟨none, app.action_param.save_seg_dir⟩ }
  else if app.infer_type = some "linear_interpolation" then
    let dummy_image := SymTensor.zeros (dummy_image_size app)
    let latent_shape :=
      (SymTensor.netOut dummy_image (net.numOutputs - 1)).shape net chShape
    match tf_reshape net chShape (SymTensor.sampled "feature") latent_shape with
    | .error e => .error e
    | .ok real_code =>
      let decoder_output := SymTensor.decoderMeans (.sharedDecoder real_code)
      .ok { console :=
              [("generated_image", decoder_output),
               ("location", SymTensor.sampled "feature_location")]
            output_decoder :=
              some ⟨some app.reader, app.action_param.save_seg_dir⟩ }
  else .error .notImplementedError

/-- The batch-output dictionary handed to `interpret_output`: the model keeps
the two artifact entries generic (type `α`) and the `location` entry as a
matrix of window indices (rows × columns). -/
structure BatchOutput (α : Type) where
  embedded : α
  generated_image : α
  location : List (List Int)

/-- Numpy column slicing `m[:, a:b]` on a row-major matrix. -/
def colSlice (m : List (List Int)) (a b : Nat) : List (List Int) :=
  m.map fun r => (r.drop a).take (b - a)

/-- The value returned by `interpret_output`: `True` in training, or a call
`self.output_decoder.decode_batch(artifact, location_or_none)`, or Python's
implicit `None` on the (unreachable) fallthrough. -/
inductive InterpResult (α : Type) where
  | trainDone
  | decoded (artifact : α) (location : Option (List (List Int)))
  | pyNone
deriving DecidableEq

/-- `AutoencoderApplication.interpret_output` (lines 224-246): training
returns `True`; otherwise the inference type is re-validated by
`look_up_operations` and the batch is decoded with the per-mode artifact and
location slice. -/
def interpret_output {α : Type} (app : AppState) (bo : BatchOutput α) :
    Except PyError (InterpResult α) :=
  if app.is_training then .ok .trainDone
  else
    match look_up_operations app.autoencoder_param.inference_type
        SUPPORTED_INFERENCE with
    | .error e => .error e
    | .ok infer_type =>
      if infer_type = "encode" then
        .ok (.decoded bo.embedded (some (colSlice bo.location 0 1)))
      else if infer_type = "encode-decode" then
        .ok (.decoded bo.generated_image (some (colSlice bo.location 0 1)))
      else if infer_type = "sample" then
        .ok (.decoded bo.generated_image none)
      else if infer_type = "linear_interpolation" then
        .ok (.decoded bo.generated_image (some (colSlice bo.location 0 2)))
      else .ok .pyNone

/-- The preprocessing chain bound on a reader, when one was bound. -/
def readerLayers : Reader → Option (List AugLayer)
  | .imageReader _ _ ls => ls
  | _ => none

/-- A numeric tag for the three augmentation-layer kinds, ordered as the
source appends them (flip = 0, spatial scaling = 1, rotation = 2). -/
def AugLayer.kind : AugLayer → Nat
  | .randomFlip _ => 0
  | .randomSpatialScaling _ _ => 1
  | .randomRotation _ _ => 2

/-! ### Characterization of `initialise_dataset_loader`, case by case -/

theorem loader_eq_train (app : AppState) (tp : AutoencoderParam)
    (h : app.is_training = true) :
    initialise_dataset_loader app tp =
      .ok { app with
            autoencoder_param := tp
            infer_type := none
            reader := .imageReader ["image"] true
              (some (augmentation_layers app.action_param)) } := by
  simp [initialise_dataset_loader, h]

theorem loader_eq_encode (app : AppState) (tp : AutoencoderParam)
    (h : app.is_training = false) (ht : tp.inference_type = "encode") :
    initialise_dataset_loader app tp =
      .ok { app with
            autoencoder_param := tp
            infer_type := some "encode"
            reader := .imageReader ["image"] true (some []) } := by
  simp [initialise_dataset_loader, h, ht, look_up_operations,
    SUPPORTED_INFERENCE]

theorem loader_eq_encode_decode (app : AppState) (tp : AutoencoderParam)
    (h : app.is_training = false) (ht : tp.inference_type = "encode-decode") :
    initialise_dataset_loader app tp =
      .ok { app with
            autoencoder_param := tp
            infer_type := some "encode-decode"
            reader := .imageReader ["image"] true (some []) } := by
  simp [initialise_dataset_loader, h, ht, look_up_operations,
    SUPPORTED_INFERENCE]

theorem loader_eq_sample (app : AppState) (tp : AutoencoderParam)
    (h : app.is_training = false) (ht : tp.inference_type = "sample") :
    initialise_dataset_loader app tp =
      .ok { app with
            autoencoder_param := tp
            infer_type := some "sample"
            reader := .emptyTuple } := by
  simp [initialise_dataset_loader, h, ht, look_up_operations,
    SUPPORTED_INFERENCE]

theorem loader_eq_interpolation (app : AppState) (tp : AutoencoderParam)
    (h : app.is_training = false)
    (ht : tp.inference_type = "linear_interpolation") :
    initialise_dataset_loader app tp =
      .ok { app with
            autoencoder_param := tp
            infer_type := some "linear_interpolation"
            reader := .imageReader ["feature"] true (some []) } := by
  simp [initialise_dataset_loader, h, ht, look_up_operations,
    SUPPORTED_INFERENCE]

theorem loader_eq_unsupported (app : AppState) (tp : AutoencoderParam)
    (h : app.is_training = false)
    (ht : tp.inference_type ∉ SUPPORTED_INFERENCE) :
    initialise_dataset_loader app tp =
      .error (.configurationError tp.inference_type,
        { app with autoencoder_param := tp }) := by
  simp [initialise_dataset_loader, h, look_up_operations, ht]

/-! ### Concrete fixtures used by the witnesses -/

def netParam0 : NetParam :=
  { batch_size := 2, reg_type := "L2", decay := 1/10, name := "vae" }

def actionParam0 : ActionParam :=
  { random_flipping_axes := 0, scaling_percentage := [-(10 : Rat), 10],
    rotation_angle := [-(5 : Rat), 5], lr := 1/1000,
    spatial_window_size := [8, 8, 8], save_seg_dir := "out",
    loss_type := "VariationalLowerBound" }

def taskParam (t : String) : AutoencoderParam :=
  { inference_type := t, n_interpolations := 4, noise_stddev := 1 }

def mkApp (training : Bool) (t : String) (it : Option String) : AppState :=
  { is_training := training, net_param := netParam0,
    action_param := actionParam0, autoencoder_param := taskParam t,
    infer_type := it, reader := .pyNone, sampler := [], net := none }

/-- A constant network-shape model used by the witnesses: eight outputs, every
output of shape `[2, 16]`. -/
def netModel0 : NetModel :=
  { numOutputs := 8, outShape := fun _ _ => [2, 16],
    sharedDecoderShape := fun _ => [2, 64],
    decoderMeansShape := fun _ => [2, 8, 8, 8, 1] }

/-- Channel shapes used by the witnesses. -/
def chShape0 : String → List Nat := fun c =>
  if c = "feature" then [2, 16] else [2, 8, 8, 8, 1]

def batchOutput0 : BatchOutput (List Int) :=
  { embedded := [100], generated_image := [200],
    location := [[3, 7, 9], [4, 8, 10]] }

/-! ### Claims -/

/-- **C1**: for every mode, `initialise_dataset_loader` selects the data
channels exactly as: TRAIN, ENCODE and ENCODE_DECODE construct a reader scoped
to the single channel `image`; INTERPOLATE constructs a reader scoped to the
single channel `feature`; SAMPLE constructs no reader (the empty-tuple
sentinel), so no reader initialisation or preprocessing binding occurs in
SAMPLE mode. -/
theorem C1_data_channel_selection (app : AppState) (tp : AutoencoderParam) :
    (app.is_training = true →
      initialise_dataset_loader app tp =
        .ok { app with
              autoencoder_param := tp
              infer_type := none
              reader := .imageReader ["image"] true
                (some (augmentation_layers app.action_param)) }) ∧
    (app.is_training = false →
      (tp.inference_type = "encode" ∨ tp.inference_type = "encode-decode") →
      initialise_dataset_loader app tp =
        .ok { app with
              autoencoder_param := tp
              infer_type := some tp.inference_type
              reader := .imageReader ["image"] true (some []) }) ∧
    (app.is_training = false → tp.inference_type = "linear_interpolation" →
      initialise_dataset_loader app tp =
        .ok { app with
              autoencoder_param := tp
              infer_type := some "linear_interpolation"
              reader := .imageReader ["feature"] true (some []) }) ∧
    (app.is_training = false → tp.inference_type = "sample" →
      initialise_dataset_loader app tp =
        .ok { app with
              autoencoder_param := tp
              infer_type := some "sample"
              reader := .emptyTuple }) := by
  refine ⟨loader_eq_train app tp, ?_, loader_eq_interpolation app tp,
    loader_eq_sample app tp⟩
  rintro h (ht | ht) <;> rw [ht]
  · exact loader_eq_encode app tp h ht
  · exact loader_eq_encode_decode app tp h ht

theorem C1_data_channel_selection_witness :
    (initialise_dataset_loader (mkApp true "encode" none) (taskParam "encode") =
      .ok { mkApp true "encode" none with
            autoencoder_param := taskParam "encode"
            infer_type := none
            reader := .imageReader ["image"] true
              (some (augmentation_layers (mkApp true "encode" none).action_param)) }) ∧
    (initialise_dataset_loader (mkApp false "encode" none) (taskParam "encode") =
      .ok { mkApp false "encode" none with
            autoencoder_param := taskParam "encode"
            infer_type := some (taskParam "encode").inference_type
            reader := .imageReader ["image"] true (some []) }) ∧
    (initialise_dataset_loader (mkApp false "linear_interpolation" none)
        (taskParam "linear_interpolation") =
      .ok { mkApp false "linear_interpolation" none with
            autoencoder_param := taskParam "linear_interpolation"
            infer_type := some "linear_interpolation"
            reader := .imageReader ["feature"] true (some []) }) ∧
    (initialise_dataset_loader (mkApp false "sample" none) (taskParam "sample") =
      .ok { mkApp false "sample" none with
            autoencoder_param := taskParam "sample"
            infer_type := some "sample"
            reader := .emptyTuple }) :=
  ⟨(C1_data_channel_selection (mkApp true "encode" none) (taskParam "encode")).1 rfl,
   (C1_data_channel_selection (mkApp false "encode" none)
      (taskParam "encode")).2.1 rfl (Or.inl rfl),
   (C1_data_channel_selection (mkApp false "linear_interpolation" none)
      (taskParam "linear_interpolation")).2.2.1 rfl rfl,
   (C1_data_channel_selection (mkApp false "sample" none)
      (taskParam "sample")).2.2.2 rfl rfl⟩

/-- **C2**: for every mode, `initialise_sampler` picks exactly one sampler
configuration: TRAIN a resize sampler with shuffling enabled and one window
per image; ENCODE and ENCODE_DECODE a resize sampler with shuffling disabled
and one window per image; INTERPOLATE a linear-interpolation sampler
parameterised by the configured number of interpolation steps; SAMPLE leaves
the sampler list empty. -/
theorem C2_sampler_selection (app : AppState) :
    (app.is_training = true →
      (initialise_sampler app).sampler =
        [Sampler.resize app.reader app.net_param.batch_size 1 true]) ∧
    (app.is_training = false →
      (app.infer_type = some "encode" ∨ app.infer_type = some "encode-decode") →
      (initialise_sampler app).sampler =
        [Sampler.resize app.reader app.net_param.batch_size 1 false]) ∧
    (app.is_training = false → app.infer_type = some "linear_interpolation" →
      (initialise_sampler app).sampler =
        [Sampler.linearInterpolate app.reader app.net_param.batch_size
          app.autoencoder_param.n_interpolations]) ∧
    (app.is_training = false → app.infer_type = some "sample" →
      (initialise_sampler app).sampler = []) := by
  refine ⟨fun h => ?_, fun h ht => ?_, fun h ht => ?_, fun h ht => ?_⟩
  · simp [initialise_sampler, h]
  · rcases ht with ht | ht <;> simp [initialise_sampler, h, ht]
  · simp [initialise_sampler, h, ht]
  · simp [initialise_sampler, h, ht]

theorem C2_sampler_selection_witness :
    ((initialise_sampler (mkApp true "encode" none)).sampler =
      [Sampler.resize (mkApp true "encode" none).reader
        (mkApp true "encode" none).net_param.batch_size 1 true]) ∧
    ((initialise_sampler (mkApp false "encode" (some "encode"))).sampler =
      [Sampler.resize (mkApp false "encode" (some "encode")).reader
        (mkApp false "encode" (some "encode")).net_param.batch_size 1 false]) ∧
    ((initialise_sampler
        (mkApp false "linear_interpolation" (some "linear_interpolation"))).sampler =
      [Sampler.linearInterpolate
        (mkApp false "linear_interpolation" (some "linear_interpolation")).reader
        (mkApp false "linear_interpolation" (some "linear_interpolation")).net_param.batch_size
        (mkApp false "linear_interpolation" (some "linear_interpolation")).autoencoder_param.n_interpolations]) ∧
    ((initialise_sampler (mkApp false "sample" (some "sample"))).sampler = []) :=
  ⟨(C2_sampler_selection (mkApp true "encode" none)).1 rfl,
   (C2_sampler_selection (mkApp false "encode" (some "encode"))).2.1 rfl
     (Or.inl rfl),
   (C2_sampler_selection
      (mkApp false "linear_interpolation" (some "linear_interpolation"))).2.2.1
     rfl rfl,
   (C2_sampler_selection (mkApp false "sample" (some "sample"))).2.2.2 rfl rfl⟩

/-- **C3**: for every inference-type string outside the supported set, both
`initialise_dataset_loader` (at setup, when not training) and
`interpret_output` (at decode time) raise the configuration error via the
supported-mode lookup — the validation happens at both call sites. -/
theorem C3_validation_at_both_sites (s : String)
    (hs : s ∉ SUPPORTED_INFERENCE) :
    (∀ (app : AppState) (tp : AutoencoderParam), app.is_training = false →
      tp.inference_type = s →
      initialise_dataset_loader app tp =
        .error (.configurationError s, { app with autoencoder_param := tp })) ∧
    (∀ (α : Type) (app : AppState) (bo : BatchOutput α),
      app.is_training = false → app.autoencoder_param.inference_type = s →
      interpret_output app bo = .error (.configurationError s)) := by
  constructor
  · intro app tp h ht
    rw [loader_eq_unsupported app tp h (by rw [ht]; exact hs), ht]
  · intro α app bo h ht
    simp [interpret_output, h, look_up_operations, ht, hs]

theorem C3_validation_at_both_sites_witness :
    (initialise_dataset_loader (mkApp false "sample" none)
        (taskParam "reconstruct") =
      .error (.configurationError "reconstruct",
        { mkApp false "sample" none with
          autoencoder_param := taskParam "reconstruct" })) ∧
    (interpret_output (mkApp false "reconstruct" none) batchOutput0 =
      .error (.configurationError "reconstruct")) :=
  ⟨(C3_validation_at_both_sites "reconstruct" (by decide)).1
      (mkApp false "sample" none) (taskParam "reconstruct") rfl rfl,
   (C3_validation_at_both_sites "reconstruct" (by decide)).2
      (List Int) (mkApp false "reconstruct" none) batchOutput0 rfl rfl⟩

/-- **C10**: when `initialise_dataset_loader` is called with the training flag
false and an unsupported inference-type string, the validation error is raised
before any reader is constructed, initialised or bound with preprocessing, so
the reader, sampler, network and `_infer_type` fields of the state carried by
the error are unchanged — failure at setup is atomic for those fields. -/
theorem C10_setup_failure_atomic (app : AppState) (tp : AutoencoderParam)
    (h : app.is_training = false)
    (hb : tp.inference_type ∉ SUPPORTED_INFERENCE) :
    initialise_dataset_loader app tp =
      .error (.configurationError tp.inference_type,
        { app with autoencoder_param := tp }) ∧
    ({ app with autoencoder_param := tp } : AppState).reader = app.reader ∧
    ({ app with autoencoder_param := tp } : AppState).sampler = app.sampler ∧
    ({ app with autoencoder_param := tp } : AppState).net = app.net ∧
    ({ app with autoencoder_param := tp } : AppState).infer_type =
      app.infer_type :=
  ⟨loader_eq_unsupported app tp h hb, rfl, rfl, rfl, rfl⟩

theorem C10_setup_failure_atomic_witness :
    (initialise_dataset_loader (mkApp false "sample" (some "sample"))
        (taskParam "reconstruct") =
      .error (.configurationError (taskParam "reconstruct").inference_type,
        { mkApp false "sample" (some "sample") with
          autoencoder_param := taskParam "reconstruct" })) ∧
    ({ mkApp false "sample" (some "sample") with
        autoencoder_param := taskParam "reconstruct" } : AppState).reader =
      (mkApp false "sample" (some "sample")).reader ∧
    ({ mkApp false "sample" (some "sample") with
        autoencoder_param := taskParam "reconstruct" } : AppState).sampler =
      (mkApp false "sample" (some "sample")).sampler ∧
    ({ mkApp false "sample" (some "sample") with
        autoencoder_param := taskParam "reconstruct" } : AppState).net =
      (mkApp false "sample" (some "sample")).net ∧
    ({ mkApp false "sample" (some "sample") with
        autoencoder_param := taskParam "reconstruct" } : AppState).infer_type =
      (mkApp false "sample" (some "sample")).infer_type :=
  C10_setup_failure_atomic (mkApp false "sample" (some "sample"))
    (taskParam "reconstruct") rfl (by decide)

def appL2 : AppState :=
  { mkApp true "encode" none with
    net_param := { netParam0 with reg_type := "l2" } }

def appL1 : AppState :=
  { mkApp true "encode" none with
    net_param := { netParam0 with reg_type := "l1" } }

/-- **C4**: in TRAIN mode the total loss passed to
`compute_gradients` equals the data loss when the decay coefficient is zero or
no regularization losses exist, and equals the data loss plus the mean of the
per-variable mean regularization losses when `decay > 0` and regularization
losses exist; regularization type `l2` versus `l1` (with `decay > 0`) selects
distinct regularizer functions at network construction. -/
theorem C4_train_total_loss (decay data_loss : Rat)
    (reg_losses : List (List Rat)) (app : AppState) :
    ((decay = 0 ∨ reg_losses = []) →
      (connect_train decay data_loss reg_losses).compute_gradients_arg =
        data_loss) ∧
    (0 < decay → reg_losses ≠ [] →
      (connect_train decay data_loss reg_losses).compute_gradients_arg =
        data_loss + reduce_mean (reg_losses.map reduce_mean)) ∧
    (app.net_param.reg_type = "l2" → 0 < app.net_param.decay →
      (initialise_network app).net =
        some ⟨some (.l2 app.net_param.decay), some (.l2 app.net_param.decay),
          app.net_param.name⟩) ∧
    (app.net_param.reg_type = "l1" → 0 < app.net_param.decay →
      (initialise_network app).net =
        some ⟨some (.l1 app.net_param.decay), some (.l1 app.net_param.decay),
          app.net_param.name⟩) ∧
    (∀ d d' : Rat, Regularizer.l2 d ≠ Regularizer.l1 d') := by
  refine ⟨?_, ?_, ?_, ?_, fun d d' hc => by cases hc⟩
  · rintro (h | h) <;> simp [connect_train, train_loss, h]
  · intro h h'
    simp [connect_train, train_loss, h, h']
  · intro h h'
    have hl : app.net_param.reg_type.toLower = "l2" := by
      rw [h]; simp [String.toLower, String.map_eq]
    simp [initialise_network, hl, h']
  · intro h h'
    have hl : app.net_param.reg_type.toLower = "l1" := by
      rw [h]; simp [String.toLower, String.map_eq]
    simp [initialise_network, hl, h']

theorem C4_train_total_loss_witness :
    ((connect_train 0 3 [[1, 2], [3]]).compute_gradients_arg = 3) ∧
    ((connect_train (1/2) 3 [[1, 2], [3]]).compute_gradients_arg =
      3 + reduce_mean ([[1, 2], [3]].map reduce_mean)) ∧
    ((initialise_network appL2).net =
      some ⟨some (.l2 appL2.net_param.decay), some (.l2 appL2.net_param.decay),
        appL2.net_param.name⟩) ∧
    ((initialise_network appL1).net =
      some ⟨some (.l1 appL1.net_param.decay), some (.l1 appL1.net_param.decay),
        appL1.net_param.name⟩) ∧
    Regularizer.l2 (1/10) ≠ Regularizer.l1 (1/10) :=
  ⟨(C4_train_total_loss 0 3 [[1, 2], [3]] appL2).1 (Or.inl rfl),
   (C4_train_total_loss (1/2) 3 [[1, 2], [3]] appL2).2.1 (by norm_num)
     (by decide),
   (C4_train_total_loss 0 3 [] appL2).2.2.1 rfl
     (by norm_num [appL2, mkApp, netParam0]),
   (C4_train_total_loss 0 3 [] appL1).2.2.2.1 rfl
     (by norm_num [appL1, mkApp, netParam0]),
   (C4_train_total_loss 0 3 [] appL2).2.2.2.2 (1/10) (1/10)⟩

/-- **C5**: on the output tuple of the same full forward pass over the real
image batch, ENCODE mode declares the element at positional index 7 under the
name `embedded` while ENCODE_DECODE declares the element at positional index 2
under the name `generated_image`; the two modes select different positional
outputs of an identical tuple. -/
theorem C5_positional_output_selection (app app' : AppState) (net : NetModel)
    (chShape : String → List Nat)
    (h : app.infer_type = some "encode")
    (h' : app'.infer_type = some "encode-decode") :
    connect_inference app net chShape = .ok
      { console :=
          [("location", .sampled "image_location"),
           ("embedded", SymTensor.netOut (.castF32 (.sampled "image")) 7)]
        output_decoder :=
          some ⟨some app.reader, app.action_param.save_seg_dir⟩ } ∧
    connect_inference app' net chShape = .ok
      { console :=
          [("location", .sampled "image_location"),
           ("generated_image", SymTensor.netOut (.castF32 (.sampled "image")) 2)]
        output_decoder :=
          some ⟨some app'.reader, app'.action_param.save_seg_dir⟩ } ∧
    SymTensor.netOut (.castF32 (.sampled "image")) 7 ≠
      SymTensor.netOut (.castF32 (.sampled "image")) 2 := by
  refine ⟨?_, ?_, by decide⟩
  · simp [connect_inference, h]
  · simp [connect_inference, h']

theorem C5_positional_output_selection_witness :
    (connect_inference (mkApp false "encode" (some "encode")) netModel0 chShape0 =
      .ok { console :=
              [("location", .sampled "image_location"),
               ("embedded", SymTensor.netOut (.castF32 (.sampled "image")) 7)]
            output_decoder :=
              some ⟨some (mkApp false "encode" (some "encode")).reader,
                (mkApp false "encode" (some "encode")).action_param.save_seg_dir⟩ }) ∧
    (connect_inference (mkApp false "encode-decode" (some "encode-decode"))
        netModel0 chShape0 =
      .ok { console :=
              [("location", .sampled "image_location"),
               ("generated_image",
                SymTensor.netOut (.castF32 (.sampled "image")) 2)]
            output_decoder :=
              some ⟨some (mkApp false "encode-decode" (some "encode-decode")).reader,
                (mkApp false "encode-decode" (some "encode-decode")).action_param.save_seg_dir⟩ }) ∧
    SymTensor.netOut (.castF32 (.sampled "image")) 7 ≠
      SymTensor.netOut (.castF32 (.sampled "image")) 2 :=
  C5_positional_output_selection (mkApp false "encode" (some "encode"))
    (mkApp false "encode-decode" (some "encode-decode")) netModel0 chShape0
    rfl rfl

/-- **C6**: `interpret_output` dispatches by mode exactly as: TRAIN performs
no decoding and returns `True`; ENCODE decodes the embedding with only column
0 of the location tensor; ENCODE_DECODE decodes the reconstructed image with
only column 0 of the location; SAMPLE decodes the reconstructed image with no
location; INTERPOLATE decodes the reconstructed image with only columns 0–1 of
the location. -/
theorem C6_interpret_dispatch (α : Type) (app : AppState) (bo : BatchOutput α) :
    (app.is_training = true → interpret_output app bo = .ok .trainDone) ∧
    (app.is_training = false →
      app.autoencoder_param.inference_type = "encode" →
      interpret_output app bo =
        .ok (.decoded bo.embedded (some (colSlice bo.location 0 1)))) ∧
    (app.is_training = false →
      app.autoencoder_param.inference_type = "encode-decode" →
      interpret_output app bo =
        .ok (.decoded bo.generated_image (some (colSlice bo.location 0 1)))) ∧
    (app.is_training = false →
      app.autoencoder_param.inference_type = "sample" →
      interpret_output app bo = .ok (.decoded bo.generated_image none)) ∧
    (app.is_training = false →
      app.autoencoder_param.inference_type = "linear_interpolation" →
      interpret_output app bo =
        .ok (.decoded bo.generated_image (some (colSlice bo.location 0 2)))) := by
  refine ⟨fun h => by simp [interpret_output, h], fun h ht => ?_,
    fun h ht => ?_, fun h ht => ?_, fun h ht => ?_⟩ <;>
  simp [interpret_output, h, look_up_operations, SUPPORTED_INFERENCE, ht]

theorem C6_interpret_dispatch_witness :
    (interpret_output (mkApp true "encode" none) batchOutput0 =
      .ok .trainDone) ∧
    (interpret_output (mkApp false "encode" (some "encode")) batchOutput0 =
      .ok (.decoded batchOutput0.embedded
        (some (colSlice batchOutput0.location 0 1)))) ∧
    (interpret_output (mkApp false "encode-decode" (some "encode-decode"))
        batchOutput0 =
      .ok (.decoded batchOutput0.generated_image
        (some (colSlice batchOutput0.location 0 1)))) ∧
    (interpret_output (mkApp false "sample" (some "sample")) batchOutput0 =
      .ok (.decoded batchOutput0.generated_image none)) ∧
    (interpret_output
        (mkApp false "linear_interpolation" (some "linear_interpolation"))
        batchOutput0 =
      .ok (.decoded batchOutput0.generated_image
        (some (colSlice batchOutput0.location 0 2)))) :=
  ⟨(C6_interpret_dispatch (List Int) (mkApp true "encode" none)
      batchOutput0).1 rfl,
   (C6_interpret_dispatch (List Int) (mkApp false "encode" (some "encode"))
      batchOutput0).2.1 rfl rfl,
   (C6_interpret_dispatch (List Int)
      (mkApp false "encode-decode" (some "encode-decode")) batchOutput0).2.2.1
     rfl rfl,
   (C6_interpret_dispatch (List Int) (mkApp false "sample" (some "sample"))
      batchOutput0).2.2.2.1 rfl rfl,
   (C6_interpret_dispatch (List Int)
      (mkApp false "linear_interpolation" (some "linear_interpolation"))
      batchOutput0).2.2.2.2 rfl rfl⟩

def sampleLoaded : AppState :=
  { mkApp false "sample" none with
    autoencoder_param := taskParam "sample"
    infer_type := some "sample"
    reader := .emptyTuple }

def trainLoaded : AppState :=
  { mkApp true "sample" none with
    autoencoder_param := taskParam "sample"
    infer_type := none
    reader := .imageReader ["image"] true
      (some (augmentation_layers actionParam0)) }

/-- **C7**: the augmentation chain built by `initialise_dataset_loader` is
non-empty only when the training flag is true (inference modes always bind an
empty chain or none at all); for every subset of the three enabled
augmentations the chain is ordered flip, then spatial scaling, then rotation,
and each transform is included iff its parameter is not the disabling sentinel
(`flip axes ≠ -1`, non-empty scaling range, non-empty rotation range). -/
theorem C7_augmentation_chain (app : AppState) (tp : AutoencoderParam)
    (ap : ActionParam) :
    (app.is_training = false → ∀ a : AppState,
      initialise_dataset_loader app tp = .ok a →
      readerLayers a.reader = none ∨ readerLayers a.reader = some []) ∧
    (app.is_training = true → ∀ a : AppState,
      initialise_dataset_loader app tp = .ok a →
      readerLayers a.reader = some (augmentation_layers app.action_param)) ∧
    List.Sorted (· < ·) ((augmentation_layers ap).map AugLayer.kind) ∧
    ((AugLayer.randomFlip ap.random_flipping_axes ∈ augmentation_layers ap) ↔
      ap.random_flipping_axes ≠ -1) ∧
    ((AugLayer.randomSpatialScaling (ap.scaling_percentage.get? 0)
        (ap.scaling_percentage.get? 1) ∈ augmentation_layers ap) ↔
      ap.scaling_percentage ≠ []) ∧
    ((AugLayer.randomRotation (ap.rotation_angle.get? 0)
        (ap.rotation_angle.get? 1) ∈ augmentation_layers ap) ↔
      ap.rotation_angle ≠ []) := by
  refine ⟨?_, ?_, ?_, ?_, ?_, ?_⟩
  · intro h a ha
    by_cases h1 : tp.inference_type = "encode"
    · rw [loader_eq_encode app tp h h1, Except.ok.injEq] at ha
      subst ha; right; rfl
    by_cases h2 : tp.inference_type = "encode-decode"
    · rw [loader_eq_encode_decode app tp h h2, Except.ok.injEq] at ha
      subst ha; right; rfl
    by_cases h3 : tp.inference_type = "sample"
    · rw [loader_eq_sample app tp h h3, Except.ok.injEq] at ha
      subst ha; left; rfl
    by_cases h4 : tp.inference_type = "linear_interpolation"
    · rw [loader_eq_interpolation app tp h h4, Except.ok.injEq] at ha
      subst ha; right; rfl
    rw [loader_eq_unsupported app tp h
      (by simp [SUPPORTED_INFERENCE, h1, h2, h3, h4])] at ha
    cases ha
  · intro h a ha
    rw [loader_eq_train app tp h, Except.ok.injEq] at ha
    subst ha; rfl
  · rcases Classical.em (ap.random_flipping_axes = -1) with hf | hf <;>
    rcases Classical.em (ap.scaling_percentage = []) with hs | hs <;>
    rcases Classical.em (ap.rotation_angle = []) with hr | hr <;>
    simp [augmentation_layers, hf, hs, hr, AugLayer.kind]
  · rcases Classical.em (ap.random_flipping_axes = -1) with hf | hf <;>
    rcases Classical.em (ap.scaling_percentage = []) with hs | hs <;>
    rcases Classical.em (ap.rotation_angle = []) with hr | hr <;>
    simp [augmentation_layers, hf, hs, hr]
  · rcases Classical.em (ap.random_flipping_axes = -1) with hf | hf <;>
    rcases Classical.em (ap.scaling_percentage = []) with hs | hs <;>
    rcases Classical.em (ap.rotation_angle = []) with hr | hr <;>
    simp [augmentation_layers, hf, hs, hr]
  · rcases Classical.em (ap.random_flipping_axes = -1) with hf | hf <;>
    rcases Classical.em (ap.scaling_percentage = []) with hs | hs <;>
    rcases Classical.em (ap.rotation_angle = []) with hr | hr <;>
    simp [augmentation_layers, hf, hs, hr]

theorem C7_augmentation_chain_witness :
    (readerLayers sampleLoaded.reader = none ∨
      readerLayers sampleLoaded.reader = some []) ∧
    readerLayers trainLoaded.reader =
      some (augmentation_layers (mkApp true "sample" none).action_param) ∧
    List.Sorted (· < ·)
      ((augmentation_layers actionParam0).map AugLayer.kind) ∧
    ((AugLayer.randomFlip actionParam0.random_flipping_axes ∈
        augmentation_layers actionParam0) ↔
      actionParam0.random_flipping_axes ≠ -1) ∧
    ((AugLayer.randomSpatialScaling (actionParam0.scaling_percentage.get? 0)
        (actionParam0.scaling_percentage.get? 1) ∈
        augmentation_layers actionParam0) ↔
      actionParam0.scaling_percentage ≠ []) ∧
    ((AugLayer.randomRotation (actionParam0.rotation_angle.get? 0)
        (actionParam0.rotation_angle.get? 1) ∈
        augmentation_layers actionParam0) ↔
      actionParam0.rotation_angle ≠ []) :=
  ⟨(C7_augmentation_chain (mkApp false "sample" none) (taskParam "sample")
      actionParam0).1 rfl sampleLoaded
      (loader_eq_sample (mkApp false "sample" none) (taskParam "sample")
        rfl rfl),
   (C7_augmentation_chain (mkApp true "sample" none) (taskParam "sample")
      actionParam0).2.1 rfl trainLoaded
      (loader_eq_train (mkApp true "sample" none) (taskParam "sample") rfl),
   (C7_augmentation_chain (mkApp true "sample" none) (taskParam "sample")
      actionParam0).2.2.1,
   (C7_augmentation_chain (mkApp true "sample" none) (taskParam "sample")
      actionParam0).2.2.2.1,
   (C7_augmentation_chain (mkApp true "sample" none) (taskParam "sample")
      actionParam0).2.2.2.2.1,
   (C7_augmentation_chain (mkApp true "sample" none) (taskParam "sample")
      actionParam0).2.2.2.2.2⟩

def appInterp : AppState :=
  mkApp false "linear_interpolation" (some "linear_interpolation")

/-- A channel-shape assignment whose `feature` batch has the wrong element
count for `netModel0`'s latent shape. -/
def chShapeBad : String → List Nat := fun c =>
  if c = "feature" then [3, 5] else [2, 8, 8, 8, 1]

/-- **C8**: in INTERPOLATE mode, `connect_data_and_network` first runs one
full forward pass on a zero-filled dummy batch to discover the latent shape
(the static shape of the last element of the network-output tuple), then
reshapes the externally supplied `feature` batch to exactly that latent shape;
the reshape succeeds precisely when the element counts agree and fails with
the shape-mismatch error when they disagree. -/
theorem C8_interpolation_reshape (app : AppState) (net : NetModel)
    (chShape : String → List Nat)
    (h : app.infer_type = some "linear_interpolation") :
    ((chShape "feature").prod =
        ((SymTensor.netOut (.zeros (dummy_image_size app))
          (net.numOutputs - 1)).shape net chShape).prod →
      connect_inference app net chShape = .ok
        { console :=
            [("generated_image",
              SymTensor.decoderMeans (.sharedDecoder (.reshaped
                (.sampled "feature")
                ((SymTensor.netOut (.zeros (dummy_image_size app))
                  (net.numOutputs - 1)).shape net chShape)))),
             ("location", .sampled "feature_location")]
          output_decoder :=
            some ⟨some app.reader, app.action_param.save_seg_dir⟩ }) ∧
    ((chShape "feature").prod ≠
        ((SymTensor.netOut (.zeros (dummy_image_size app))
          (net.numOutputs - 1)).shape net chShape).prod →
      connect_inference app net chShape = .error .shapeMismatchError) := by
  constructor <;> intro hp <;> simp only [SymTensor.shape] at hp <;>
    simp [connect_inference, h, tf_reshape, SymTensor.shape, hp]

theorem C8_interpolation_reshape_witness :
    (connect_inference appInterp netModel0 chShape0 = .ok
      { console :=
          [("generated_image",
            SymTensor.decoderMeans (.sharedDecoder (.reshaped
              (.sampled "feature")
              ((SymTensor.netOut (.zeros (dummy_image_size appInterp))
                (netModel0.numOutputs - 1)).shape netModel0 chShape0)))),
           ("location", .sampled "feature_location")]
        output_decoder :=
          some ⟨some appInterp.reader, appInterp.action_param.save_seg_dir⟩ }) ∧
    (connect_inference appInterp netModel0 chShapeBad =
      .error .shapeMismatchError) :=
  ⟨(C8_interpolation_reshape appInterp netModel0 chShape0 rfl).1 rfl,
   (C8_interpolation_reshape appInterp netModel0 chShapeBad rfl).2
     (by decide)⟩

/-- **C9**: in SAMPLE mode the reader is never initialised and stays the
empty-tuple sentinel through dataset-loader and sampler setup (and the
aggregator is built with no reader); the noise tensor fed to the decoder-only
entry points is drawn from a normal distribution with the configured standard
deviation and has exactly the shape of the latent tensor (the last element of
the network-output tuple) discovered by the dummy forward pass. -/
theorem C9_sample_pipeline (app : AppState) (tp : AutoencoderParam)
    (net : NetModel) (chShape : String → List Nat)
    (hT : app.is_training = false) (hI : tp.inference_type = "sample") :
    ∃ a : AppState,
      initialise_dataset_loader app tp = .ok a ∧
      a.reader = .emptyTuple ∧
      (initialise_sampler a).reader = .emptyTuple ∧
      (initialise_sampler a).sampler = [] ∧
      connect_inference (initialise_sampler a) net chShape = .ok
        { console :=
            [("generated_image",
              SymTensor.decoderMeans (.sharedDecoder (.randomNormal
                ((SymTensor.netOut (.zeros (dummy_image_size a))
                  (net.numOutputs - 1)).shape net chShape)
                0 tp.noise_stddev)))]
          output_decoder := some ⟨none, app.action_param.save_seg_dir⟩ } ∧
      (SymTensor.randomNormal
          ((SymTensor.netOut (.zeros (dummy_image_size a))
            (net.numOutputs - 1)).shape net chShape) 0
          tp.noise_stddev).shape net chShape =
        (SymTensor.netOut (.zeros (dummy_image_size a))
          (net.numOutputs - 1)).shape net chShape := by
  refine ⟨_, loader_eq_sample app tp hT hI, rfl, ?_, ?_, ?_, rfl⟩
  · simp [initialise_sampler, hT]
  · simp [initialise_sampler, hT]
  · simp [connect_inference, initialise_sampler, dummy_image_size, hT,
      SymTensor.shape]

theorem C9_sample_pipeline_witness :
    ∃ a : AppState,
      initialise_dataset_loader (mkApp false "sample" none)
        (taskParam "sample") = .ok a ∧
      a.reader = .emptyTuple ∧
      (initialise_sampler a).reader = .emptyTuple ∧
      (initialise_sampler a).sampler = [] ∧
      connect_inference (initialise_sampler a) netModel0 chShape0 = .ok
        { console :=
            [("generated_image",
              SymTensor.decoderMeans (.sharedDecoder (.randomNormal
                ((SymTensor.netOut (.zeros (dummy_image_size a))
                  (netModel0.numOutputs - 1)).shape netModel0 chShape0)
                0 (taskParam "sample").noise_stddev)))]
          output_decoder :=
            some ⟨none, (mkApp false "sample" none).action_param.save_seg_dir⟩ } ∧
      (SymTensor.randomNormal
          ((SymTensor.netOut (.zeros (dummy_image_size a))
            (netModel0.numOutputs - 1)).shape netModel0 chShape0) 0
          (taskParam "sample").noise_stddev).shape netModel0 chShape0 =
        (SymTensor.netOut (.zeros (dummy_image_size a))
          (netModel0.numOutputs - 1)).shape netModel0 chShape0 :=
  C9_sample_pipeline (mkApp false "sample" none) (taskParam "sample")
    netModel0 chShape0 rfl rfl

end Autoencoder
